import Mathlib

/-!
Verification of the Spotify-Rehydrator repository core
(`src/spotifyrehydrator/rehydrate.py`, `rehydrator/functions.py`).

Dataframes are embedded as Lean lists of rows; `pd.merge(..., how="left")`
is embedded by `leftJoin`, which reproduces the row-multiplying pandas
semantics (a left row is emitted once per matching right row, or once with
a null right part when no right row matches).  Python exceptions are
embedded by `Except PyExn`.
-/

set_option autoImplicit false

/-- Python exception classes that the embedded code can raise or catch. -/
inductive PyExn where
  | indexError
  | typeError
  | attributeError
  | spotifyException
  | keyError
  | otherError (msg : String)
deriving DecidableEq, Repr

/-- A deduplication key: an (artistName, trackName) combination. -/
abbrev Pair := String × String

/-- One listening event as read from the streaming-history JSON. -/
structure Event where
  artistName : String
  trackName : String
  msPlayed : Nat
  endTime : String
deriving DecidableEq, Repr

/-- The (artistName, trackName) key of an event. -/
def Event.pair (e : Event) : Pair := (e.artistName, e.trackName)

/-- A row of the deduplicated tracks table after `get_track_ids`:
the pair together with the `trackID` cell (an id, `"MISSING"` or `"ERROR"`). -/
structure TrackRow where
  artistName : String
  trackName : String
  trackID : String
deriving DecidableEq, Repr

/-- The (artistName, trackName) key of a tracks-table row. -/
def TrackRow.pair (t : TrackRow) : Pair := (t.artistName, t.trackName)

/-- One record returned by the bulk audio-features endpoint, keyed by `id`.
A single representative numeric attribute stands for the feature columns. -/
structure FeatRow where
  id : String
  danceability : Int
deriving DecidableEq, Repr

/-- `pd.merge(left, right, how="left")` on computed keys: each left row is
paired with every matching right row, or with `none` when nothing matches. -/
def leftJoin {L R K : Type} [DecidableEq K] (left : List L) (right : List R)
    (keyL : L → K) (keyR : R → K) : List (L × Option R) :=
  left.flatMap fun l =>
    match right.filter (fun r => decide (keyR r = keyL l)) with
    | [] => [(l, none)]
    | ms => ms.map fun r => (l, some r)

/-- First row of `right` whose key is `k`, if any. -/
def lookupBy {R K : Type} [DecidableEq K] (right : List R) (keyR : R → K)
    (k : K) : Option R :=
  right.find? (fun r => decide (keyR r = k))

theorem filter_key_eq_of_nodup {R K : Type} [DecidableEq K]
    (right : List R) (keyR : R → K) (k : K)
    (h : (right.map keyR).Nodup) :
    right.filter (fun r => decide (keyR r = k)) =
      match lookupBy right keyR k with
      | none => []
      | some r => [r] := by
  induction right with
  | nil => simp [lookupBy]
  | cons a t ih =>
    simp only [List.map_cons, List.nodup_cons, List.mem_map] at h
    by_cases hk : keyR a = k
    · have hrest : t.filter (fun r => decide (keyR r = k)) = [] := by
        rw [List.filter_eq_nil_iff]
        intro r hr
        simp only [decide_eq_true_eq]
        intro hcontr
        exact h.1 ⟨r, hr, by rw [hcontr, hk]⟩
      simp [lookupBy, List.filter_cons, List.find?, hk, hrest]
    · simp only [lookupBy, List.filter_cons, List.find?] at *
      simp [hk, ih h.2]

theorem leftJoin_eq_map_of_nodup {L R K : Type} [DecidableEq K]
    (left : List L) (right : List R) (keyL : L → K) (keyR : R → K)
    (h : (right.map keyR).Nodup) :
    leftJoin left right keyL keyR =
      left.map (fun l => (l, lookupBy right keyR (keyL l))) := by
  induction left with
  | nil => simp [leftJoin]
  | cons a t ih =>
    simp only [leftJoin, List.flatMap_cons] at *
    rw [filter_key_eq_of_nodup right keyR (keyL a) h]
    cases hfind : lookupBy right keyR (keyL a) with
    | none => simpa [hfind] using ih
    | some r => simpa [hfind] using ih

theorem leftJoin_length_of_nodup {L R K : Type} [DecidableEq K]
    (left : List L) (right : List R) (keyL : L → K) (keyR : R → K)
    (h : (right.map keyR).Nodup) :
    (leftJoin left right keyL keyR).length = left.length := by
  rw [leftJoin_eq_map_of_nodup left right keyL keyR h, List.length_map]

theorem lookupBy_map {R S K : Type} [DecidableEq K]
    (right : List R) (f : R → S) (keyR : R → K) (keyS : S → K)
    (hkey : ∀ r, keyS (f r) = keyR r) (k : K) :
    lookupBy (right.map f) keyS k = (lookupBy right keyR k).map f := by
  induction right with
  | nil => simp [lookupBy]
  | cons a t ih =>
    simp only [lookupBy, List.map_cons, List.find?] at *
    rw [hkey a]
    by_cases hk : keyR a = k
    · simp [hk]
    · simp [hk, ih]

/-! ## Embedding of `src/spotifyrehydrator/rehydrate.py` (the final variant) -/

namespace SR

/-- `Tracks.get_features`, lines 394-400: turn the accumulated feature
record list into a dataframe and left-merge the deduplicated tracks table
with it on `trackID = id`.  When the record list is EMPTY,
`pd.DataFrame.from_records([])` yields a column-less frame, so the merge
with `right_on="id"` (and the `drop` at line 402) raises `KeyError`
instead of producing a dataframe. -/
def Tracks.full_dataset (pairTable : List TrackRow) (features : List FeatRow) :
    Except PyExn (List (TrackRow × Option FeatRow)) :=
  if features = [] then .error .keyError
  else .ok (leftJoin pairTable features TrackRow.trackID FeatRow.id)

/-- `ListeningHistory.rehydrate`, lines 246-248: left-merge the raw events
onto the track dataset on `["artistName", "trackName"]`. -/
def ListeningHistory.rehydrate (events : List Event)
    (trackData : List (TrackRow × Option FeatRow)) :
    List (Event × Option (TrackRow × Option FeatRow)) :=
  leftJoin events trackData Event.pair (fun r => r.1.pair)

/-- The two sequential left joins of the assembler, as one function of the
event batch, the pair-to-identifier table and the identifier-to-features
table; a `KeyError` raised while building the track dataset propagates. -/
def assemble (events : List Event) (pairTable : List TrackRow)
    (features : List FeatRow) :
    Except PyExn (List (Event × Option (TrackRow × Option FeatRow))) :=
  match Tracks.full_dataset pairTable features with
  | .ok trackData => .ok (ListeningHistory.rehydrate events trackData)
  | .error e => .error e

/-- `Tracks.get_features`, lines 371-373.  Line 372 computes the table with
the `"MISSING"`/`"ERROR"` sentinels filtered out, but line 373 immediately
rebinds `to_find` to the full unfiltered `trackID` list, so the filter has
no effect on what is sent to the endpoint. -/
def Tracks.to_find (tracks : List TrackRow) : List String :=
  let _filtered :=
    tracks.filter (fun r => !decide (r.trackID ∈ (["MISSING", "ERROR"] : List String)))
  tracks.map TrackRow.trackID

/-- `range(0, len(ids), 100)` together with the slices `ids[i : i + 100]`:
the batches handed to the bulk audio-features endpoint. -/
def chunkList (ids : List String) : List (List String) :=
  (List.range ((ids.length + 99) / 100)).map (fun j => (ids.drop (j * 100)).take 100)

/-- The external bulk audio-features endpoint.  The second argument is the
authentication generation: `set_sp` bumps it by one. -/
structure FeatEndpoint where
  audioFeatures : List String → Nat → Except PyExn (List (Option FeatRow))

/-- The per-chunk loop of `Tracks.get_features`, lines 377-392.  Returns the
trace of `(chunk, auth generation)` calls issued, together with either the
accumulated non-empty feature sets or the exception that escaped the loop.
On a `SpotifyException` the auth object is reset and the same chunk is
retried once, outside any handler; any other exception, or a failure of the
retry, propagates immediately. -/
def getFeaturesLoop (ep : FeatEndpoint) (auth : Nat) :
    List (List String) → List (List String × Nat) × Except PyExn (List FeatRow)
  | [] => ([], .ok [])
  | c :: rest =>
    match ep.audioFeatures c auth with
    | .ok fs =>
      let r := getFeaturesLoop ep auth rest
      ((c, auth) :: r.1, r.2.map (fun acc => fs.filterMap id ++ acc))
    | .error .spotifyException =>
      match ep.audioFeatures c (auth + 1) with
      | .ok fs =>
        let r := getFeaturesLoop ep (auth + 1) rest
        ((c, auth) :: (c, auth + 1) :: r.1, r.2.map (fun acc => fs.filterMap id ++ acc))
      | .error e => ([(c, auth), (c, auth + 1)], .error e)
    | .error e => ([(c, auth)], .error e)

/-- The feature-fetch phase of `Tracks.get_features`: chunk the (unfiltered,
see `Tracks.to_find`) identifier list and run the per-chunk loop from auth
generation 0. -/
def Tracks.get_features_fetch (ep : FeatEndpoint) (tracks : List TrackRow) :
    List (List String × Nat) × Except PyExn (List FeatRow) :=
  getFeaturesLoop ep 0 (chunkList (Tracks.to_find tracks))

/-- Columns of the deduplicated tracks table entering the feature merge. -/
def tracksCols : List String := ["artistName", "trackName", "trackID"]

/-- Column list of `pd.merge(left, right, ...)`: overlapping column names
get the `_x`/`_y` suffixes, all others pass through. -/
def suffixCols (l r : List String) : List String :=
  (l.map fun c => if c ∈ r then c ++ "_x" else c) ++
    (r.map fun c => if c ∈ l then c ++ "_y" else c)

/-- `df.drop(columns=...)`: raises `KeyError` unless every named column is
present, otherwise removes exactly those columns. -/
def dropColumns (targets cols : List String) : Except PyExn (List String) :=
  if targets.all (fun t => decide (t ∈ cols)) then
    .ok (cols.filter (fun c => !decide (c ∈ targets)))
  else .error .keyError

/-- The column list of the dataframe returned by `Tracks.get_features`
(line 402 drops the raw catalog metadata columns after the merge), as a
function of the columns of the audio-features response. -/
def Tracks.get_features_cols (featureCols : List String) : Except PyExn (List String) :=
  dropColumns ["id", "uri", "track_href", "analysis_url"]
    (suffixCols tracksCols featureCols)

end SR

/-! ## The catalog search collaborator and the two Resolver variants -/

/-- The apostrophe character, as a one-character string. -/
def apos : String := String.mk [Char.ofNat 39]

/-- Fuel-driven worker for `pyReplaceEmpty`; the fuel is the length of the
remaining text, which bounds the number of steps. -/
def removeSubAux (pat : List Char) : Nat → List Char → List Char
  | _, [] => []
  | 0, s => s
  | fuel + 1, c :: rest =>
    if pat ≠ [] ∧ (c :: rest).take pat.length = pat then
      removeSubAux pat fuel ((c :: rest).drop pat.length)
    else
      c :: removeSubAux pat fuel rest

/-- Python `s.replace(pat, "")`: remove every (left-to-right,
non-overlapping) occurrence of `pat` from `s`. -/
def pyReplaceEmpty (pat s : String) : String :=
  String.mk (removeSubAux pat.data s.data.length s.data)

/-- Outcome of one `sp.search(...)` call: either the `items` list of the
results object, or an exception raised by the call itself. -/
inductive SearchOutcome where
  | items (l : List String)
  | raise (e : PyExn)
deriving DecidableEq, Repr

/-- The external catalog search collaborator. -/
structure Catalog where
  search : String → String → SearchOutcome

namespace SR

/-- `Track.search_results`, lines 439-458: optionally strip `remove_char`
from both fields, call the search endpoint, and return the WHOLE results
object (the first-result indexing was moved to `_extract_results`, so an
empty `items` list does not raise here). -/
def Track.search_results (cat : Catalog) (artist name : String)
    (remove_char : Option String) : Except PyExn (List String) :=
  let a := match remove_char with | none => artist | some ch => pyReplaceEmpty ch artist
  let t := match remove_char with | none => name | some ch => pyReplaceEmpty ch name
  match cat.search a t with
  | .items l => .ok l
  | .raise e => .error e

/-- `Track._extract_results`, line 486: `results["tracks"]["items"][0]["id"]`
raises `IndexError` when the items list is empty. -/
def Track.extract_results : List String → Except PyExn String
  | [] => .error .indexError
  | x :: _ => .ok x

/-- `Track.get`, lines 541-569.  The `try` block only wraps the
`search_results` calls; `_extract_results` runs after the whole
`try`/`except` chain, so an `IndexError` it raises is not caught.  The
bare `except Exception` arm applies only to the first attempt (an
exception raised inside the `except IndexError` handler is not routed to a
sibling handler of the same `try`). -/
def Track.get (cat : Catalog) (artist name : String) : Except PyExn String :=
  match Track.search_results cat artist name none with
  | .ok results => Track.extract_results results
  | .error .indexError =>
    match Track.search_results cat artist name (some apos) with
    | .ok results => Track.extract_results results
    | .error .indexError =>
      match Track.search_results cat artist name (some "- ") with
      | .ok results => Track.extract_results results
      | .error .indexError => .ok "MISSING"
      | .error e => .error e
    | .error e => .error e
  | .error _ => .ok "ERROR"

end SR

/-! ## Embedding of `rehydrator/functions.py` (the incremental variant) -/

namespace FR

/-- `get_track`, lines 120-128: search, then return
`results["tracks"]["items"][0]["id"]` — `IndexError` on an empty items
list, and any exception of the call itself propagates. -/
def get_track (cat : Catalog) (artist track : String) : Except PyExn String :=
  match cat.search artist track with
  | .items [] => .error .indexError
  | .items (x :: _) => .ok x
  | .raise e => .error e

/-- The value left in a `trackID` cell by the resolution loop of
`add_track_id`.  Note line 197 stores the TUPLE `("ERROR", e)`, not the
bare string. -/
inductive CellValue where
  | id (s : String)
  | missing
  | errorTuple (e : PyExn)
deriving DecidableEq, Repr

/-- The body of the per-row loop of `add_track_id`, lines 170-203, for one
(artist, track) pair.  Also returns the list of (artist, track) queries
issued.  The nested `try` chain retries with apostrophes stripped, then
with `"- "` stripped; `except Exception` catches only an exception of the
FIRST attempt (an exception raised inside the `except IndexError` handler
propagates out of the loop). -/
def resolveCell (cat : Catalog) (artist track : String) :
    Except PyExn CellValue × List (String × String) :=
  match get_track cat artist track with
  | .ok i => (.ok (.id i), [(artist, track)])
  | .error .indexError =>
    let a2 := pyReplaceEmpty apos artist
    let t2 := pyReplaceEmpty apos track
    match get_track cat a2 t2 with
    | .ok i => (.ok (.id i), [(artist, track), (a2, t2)])
    | .error .indexError =>
      let a3 := pyReplaceEmpty "- " artist
      let t3 := pyReplaceEmpty "- " track
      match get_track cat a3 t3 with
      | .ok i => (.ok (.id i), [(artist, track), (a2, t2), (a3, t3)])
      | .error .indexError => (.ok .missing, [(artist, track), (a2, t2), (a3, t3)])
      | .error e => (.error e, [(artist, track), (a2, t2), (a3, t3)])
    | .error e => (.error e, [(artist, track), (a2, t2)])
  | .error e => (.ok (.errorTuple e), [(artist, track)])

/-- `DataFrame.drop_duplicates` on the two name columns, keeping the
original row positions (the index labels that `DataFrame.equals` compares). -/
def dropDuplicatesIdx (rows : List Pair) : List (Nat × Pair) :=
  go 0 [] rows
where
  go (i : Nat) (seen : List Pair) : List Pair → List (Nat × Pair)
    | [] => []
    | p :: rest =>
      if p ∈ seen then go (i + 1) seen rest
      else (i, p) :: go (i + 1) (p :: seen) rest

/-- `unmatched_tracks`, lines 91-117.  Deduplicate both sides; if the two
deduplicated frames are equal (`DataFrame.equals`: same values in the same
order under the same index labels) return `None`; otherwise return the
left-only rows of the indicator merge, i.e. the deduplicated new pairs
whose pair does not occur among the existing pairs. -/
def unmatched_tracks (new_df existing_df : List Pair) : Option (List Pair) :=
  let existing_tracks := dropDuplicatesIdx existing_df
  let new_tracks := dropDuplicatesIdx new_df
  if existing_tracks = new_tracks then none
  else
    some (((new_tracks.filter
      (fun ip => !decide (ip.2 ∈ existing_tracks.map Prod.snd))).map Prod.snd))

/-- A row of the `id_matched` dataset: one listening event plus the merged
`trackID` cell (`none` is the NaN produced by an unmatched left join). -/
abbrev MatchedRow := Event × Option CellValue

/-- The (artistName, trackName) key of a matched row. -/
def MatchedRow.pair (r : MatchedRow) : Pair := r.1.pair

/-- The resolution loop of `add_track_id` over the pairs that still need
resolving; the first exception aborts the whole loop. -/
def resolveLoop (cat : Catalog) : List Pair → Except PyExn (List (Pair × CellValue))
  | [] => .ok []
  | p :: rest =>
    match (resolveCell cat p.1 p.2).1 with
    | .ok v =>
      match resolveLoop cat rest with
      | .ok acc => .ok ((p, v) :: acc)
      | .error e => .error e
    | .error e => .error e

/-- Line 206: `pd.merge(file, tracks, how="left", on=["artistName", "trackName"])`. -/
def mergeTracks (file : List Event) (tbl : List (Pair × CellValue)) : List MatchedRow :=
  (leftJoin file tbl Event.pair Prod.fst).map (fun er => (er.1, er.2.map Prod.snd))

/-- Helper for `add_track_id`: resolve the given pairs and merge the events
against the newly resolved table only. -/
def runResolve (cat : Catalog) (file : List Event) (tracks : List Pair) :
    Except PyExn (List MatchedRow) × List Pair :=
  (match resolveLoop cat tracks with
   | .ok tbl => .ok (mergeTracks file tbl)
   | .error e => .error e,
   tracks)

/-- `add_track_id`, lines 131-225, with the prior snapshot (`id_matched.tsv`
content, or `none` on `FileNotFoundError`) passed explicitly.  Returns the
resulting dataset (or the exception that escaped the loop) together with
the list of pairs handed to the per-pair resolution loop. -/
def add_track_id (cat : Catalog) (file : List Event)
    (existing : Option (List MatchedRow)) :
    Except PyExn (List MatchedRow) × List Pair :=
  match existing with
  | some existing_df =>
    match unmatched_tracks (file.map Event.pair) (existing_df.map MatchedRow.pair) with
    | none => (.ok existing_df, [])
    | some tracks => runResolve cat file tracks
  | none => runResolve cat file ((dropDuplicatesIdx (file.map Event.pair)).map Prod.snd)

end FR

/-! ## Embedding of the Run Coordinator (`Rehydrator.run`, lines 99-124) -/

namespace SR

/-- The output directory: filename to file content. -/
abbrev FS := List (String × String)

/-- `os.path.isfile` on the output directory. -/
def FS.isfile (fs : FS) (name : String) : Bool :=
  (fs.lookup name).isSome

/-- Writing a file (creating it, or shadowing any previous content). -/
def FS.write (fs : FS) (name content : String) : FS :=
  (name, content) :: fs

/-- Output filename: `{person}_hydrated.tsv`, or `hydrated.tsv` for the
anonymous case. -/
def outputName : Option String → String
  | some p => p ++ "_hydrated.tsv"
  | none => "hydrated.tsv"

/-- Console events emitted by the coordinator. -/
inductive LogEvent where
  | skippedPerson (p : String)
  | savedPerson (p : Option String)
deriving DecidableEq, Repr

/-- The per-user pipeline (`ListeningHistory(...).rehydrate` followed by
`save`), abstracted: the content it would persist, or the exception it
raises, together with the number of external calls one attempt issues. -/
structure Pipeline where
  rehydrate : Option String → Except PyExn String
  cost : Option String → Nat

/-- Everything observable about one `run()` invocation: the resulting
output directory, the number of external calls made, the log, and the
exception that escaped, if any. -/
structure RunResult where
  fs : FS
  calls : Nat
  log : List LogEvent
  exn : Option PyExn
deriving DecidableEq, Repr

/-- The `for person in self._person_ids` loop, lines 104-119: skip a person
whose output file exists, otherwise rehydrate and save; an exception from
the pipeline escapes the loop at once. -/
def runLoop (pl : Pipeline) : List String → FS → Nat → List LogEvent → RunResult
  | [], fs, n, log => ⟨fs, n, log, none⟩
  | p :: rest, fs, n, log =>
    if FS.isfile fs (outputName (some p)) then
      runLoop pl rest fs n (log ++ [.skippedPerson p])
    else
      match pl.rehydrate (some p) with
      | .ok data =>
        runLoop pl rest (FS.write fs (outputName (some p)) data)
          (n + pl.cost (some p)) (log ++ [.savedPerson (some p)])
      | .error e => ⟨fs, n + pl.cost (some p), log, some e⟩

/-- The `try` body of `Rehydrator.run`.  When `_person_ids` is `None`,
`for person in None:` raises `TypeError` before any iteration. -/
def Rehydrator.runBody (pl : Pipeline) (ids : Option (List String)) (fs : FS) :
    RunResult :=
  match ids with
  | none => ⟨fs, 0, [], some .typeError⟩
  | some l => runLoop pl l fs 0 []

/-- The `except AttributeError` branch, lines 120-124: rehydrate the whole
input as one anonymous user and save to `hydrated.tsv`, without any check
that the output already exists. -/
def Rehydrator.anonymousBranch (pl : Pipeline) (fs : FS) (n : Nat)
    (log : List LogEvent) : RunResult :=
  match pl.rehydrate none with
  | .ok data =>
    ⟨FS.write fs (outputName none) data, n + pl.cost none,
      log ++ [.savedPerson none], none⟩
  | .error e => ⟨fs, n + pl.cost none, log, some e⟩

/-- `Rehydrator.run`: the loop body guarded by `except AttributeError` —
only an `AttributeError` reaches the anonymous fallback; every other
exception (in particular the `TypeError` from iterating `None`)
propagates. -/
def Rehydrator.run (pl : Pipeline) (ids : Option (List String)) (fs : FS) :
    RunResult :=
  let r := Rehydrator.runBody pl ids fs
  if r.exn = some .attributeError then Rehydrator.anonymousBranch pl r.fs r.calls r.log
  else r

end SR

/-! ## Theorems for the claims -/

instance {ε α : Type} [DecidableEq ε] [DecidableEq α] : DecidableEq (Except ε α) :=
  fun a b =>
    match a, b with
    | .ok x, .ok y =>
      if h : x = y then .isTrue (by rw [h])
      else .isFalse (by intro hc; cases hc; exact h rfl)
    | .error x, .error y =>
      if h : x = y then .isTrue (by rw [h])
      else .isFalse (by intro hc; cases hc; exact h rfl)
    | .ok _, .error _ => .isFalse (by intro hc; cases hc)
    | .error _, .ok _ => .isFalse (by intro hc; cases hc)

def C1evs : List Event := [⟨"A", "X", 1, "e1"⟩, ⟨"A", "X", 2, "e2"⟩]

def C1tbl : List TrackRow := [⟨"A", "X", "MISSING"⟩]

def C1feats : List FeatRow := [⟨"idZ", 5⟩]

/-- C1 counterexample: with an EMPTY identifier-to-features mapping —
a case the claim explicitly includes — the assembler does not produce a
row-preserving output at all: `pd.DataFrame.from_records([])` has no `id`
column, so the merge at line 398 (and the `drop` at line 402) raises
`KeyError`. -/
theorem C1_empty_features_keyerror :
    SR.assemble C1evs C1tbl [] = .error .keyError := by
  exact rfl

/-- C1 (amended): for every event batch, any duplicate-key-free
pair-to-identifier table (including the empty one), and any duplicate-key-
free NON-empty identifier-to-features table, the assembled output of the
two sequential left joins has exactly as many rows as the input batch, and
each row carries its event unchanged, the identifier row looked up by
(artistName, trackName) — `"MISSING"`/`"ERROR"` values included — and the
feature set looked up by identifier, `none` where absent.  With an empty
feature table the code instead raises `KeyError` (see the
counterexample). -/
theorem C1_assemble_preserves_rows (events : List Event) (pairTable : List TrackRow)
    (features : List FeatRow)
    (hp : (pairTable.map TrackRow.pair).Nodup)
    (hf : (features.map FeatRow.id).Nodup)
    (hfe : features ≠ []) :
    SR.assemble events pairTable features =
      .ok (events.map (fun e =>
        (e, (lookupBy pairTable TrackRow.pair e.pair).map
          (fun t => (t, lookupBy features FeatRow.id t.trackID))))) ∧
    (∀ out, SR.assemble events pairTable features = .ok out →
      out.length = events.length) := by
  have hfd : SR.Tracks.full_dataset pairTable features =
      .ok (leftJoin pairTable features TrackRow.trackID FeatRow.id) := by
    rw [SR.Tracks.full_dataset, if_neg hfe]
  have hmap : leftJoin pairTable features TrackRow.trackID FeatRow.id =
      pairTable.map (fun t => (t, lookupBy features FeatRow.id t.trackID)) :=
    leftJoin_eq_map_of_nodup _ _ _ _ hf
  have hkeys : ((pairTable.map
      (fun t => (t, lookupBy features FeatRow.id t.trackID))).map
        (fun r => r.1.pair)).Nodup := by
    rw [List.map_map]
    exact hp
  have hok : SR.assemble events pairTable features =
      .ok (SR.ListeningHistory.rehydrate events
        (pairTable.map (fun t => (t, lookupBy features FeatRow.id t.trackID)))) := by
    rw [SR.assemble, hfd, hmap]
  have hre : SR.ListeningHistory.rehydrate events
        (pairTable.map (fun t => (t, lookupBy features FeatRow.id t.trackID)))
      = events.map (fun e =>
          (e, lookupBy (pairTable.map
                (fun t => (t, lookupBy features FeatRow.id t.trackID)))
              (fun r => r.1.pair) e.pair)) :=
    leftJoin_eq_map_of_nodup _ _ _ _ hkeys
  have hlk : ∀ k, lookupBy (pairTable.map
        (fun t => (t, lookupBy features FeatRow.id t.trackID)))
        (fun r => r.1.pair) k
      = (lookupBy pairTable TrackRow.pair k).map
          (fun t => (t, lookupBy features FeatRow.id t.trackID)) :=
    fun k => lookupBy_map _ _ _ _ (fun t => rfl) k
  refine ⟨?_, ?_⟩
  · rw [hok, hre]
    simp only [hlk]
  · intro out hout
    rw [hok, hre] at hout
    injection hout with h
    subst h
    rw [List.length_map]

/-- Witness for the amended C1 at a concrete input: two events for the same
pair, a one-row identifier table carrying the `"MISSING"` sentinel (whose
feature lookup is `none`), and a non-empty one-row feature table. -/
theorem C1_assemble_preserves_rows_witness :
    (C1tbl.map TrackRow.pair).Nodup ∧ (C1feats.map FeatRow.id).Nodup ∧
    C1feats ≠ [] ∧
    SR.assemble C1evs C1tbl C1feats =
      .ok (C1evs.map (fun e =>
        (e, (lookupBy C1tbl TrackRow.pair e.pair).map
          (fun t => (t, lookupBy C1feats FeatRow.id t.trackID))))) :=
  ⟨by decide, by decide, by decide,
    (C1_assemble_preserves_rows C1evs C1tbl C1feats (by decide) (by decide)
      (by decide)).1⟩

/-- C2: the claim that `"MISSING"`/`"ERROR"` are excluded from the feature
fetch is violated by `Tracks.get_features`: line 372 computes the filtered
table but line 373 rebinds `to_find` to the unfiltered `trackID` list, so
at this input the chunk sent to the bulk endpoint contains both sentinels. -/
theorem C2_sentinels_sent_to_endpoint :
    SR.Tracks.to_find [⟨"A", "X", "id1"⟩, ⟨"B", "Y", "MISSING"⟩, ⟨"C", "Z", "ERROR"⟩]
      = ["id1", "MISSING", "ERROR"] ∧
    SR.chunkList
        (SR.Tracks.to_find
          [⟨"A", "X", "id1"⟩, ⟨"B", "Y", "MISSING"⟩, ⟨"C", "Z", "ERROR"⟩])
      = [["id1", "MISSING", "ERROR"]] := by
  exact ⟨rfl, rfl⟩

def gunsArtist : String := "Guns N" ++ apos ++ " Roses"

def gunsTrack : String := "Sweet Child O" ++ apos ++ " Mine"

/-- A catalog on which the exact-string search yields no result but the
apostrophe-stripped search succeeds. -/
def gunsCatalog : Catalog where
  search := fun a t =>
    if a = "Guns N Roses" ∧ t = "Sweet Child O Mine" then .items ["id42"]
    else .items []

/-- C3: in the final variant the retry heuristics of `Track.get` are dead
code — `search_results` returns the whole results object without indexing,
so a no-result search does not raise `IndexError` inside the `try`, and the
`IndexError` raised later by `_extract_results` escapes uncaught.  At the
failing input the final variant raises instead of returning the
apostrophe-stripped identifier, while the per-row loop of the
`rehydrator/functions.py` variant (which indexes inside the `try`) returns
exactly that identifier, as the claim describes. -/
theorem C3_dead_retry_heuristics :
    SR.Track.get gunsCatalog gunsArtist gunsTrack = .error .indexError ∧
    FR.resolveCell gunsCatalog gunsArtist gunsTrack
      = (.ok (.id "id42"),
         [(gunsArtist, gunsTrack), ("Guns N Roses", "Sweet Child O Mine")]) := by
  exact ⟨rfl, rfl⟩

theorem mem_dropDuplicatesIdx_go (l : List Pair) :
    ∀ (i : Nat) (seen : List Pair) (p : Pair),
      p ∈ (FR.dropDuplicatesIdx.go i seen l).map Prod.snd ↔ (p ∈ l ∧ p ∉ seen) := by
  induction l with
  | nil => intro i seen p; simp [FR.dropDuplicatesIdx.go]
  | cons q rest ih =>
    intro i seen p
    by_cases hq : q ∈ seen
    · rw [FR.dropDuplicatesIdx.go, if_pos hq, ih]
      constructor
      · rintro ⟨hp, hs⟩
        exact ⟨List.mem_cons_of_mem q hp, hs⟩
      · rintro ⟨hp, hs⟩
        rcases List.mem_cons.mp hp with rfl | hp
        · exact absurd hq hs
        · exact ⟨hp, hs⟩
    · rw [FR.dropDuplicatesIdx.go, if_neg hq]
      simp only [List.map_cons, List.mem_cons, ih, List.mem_cons, not_or]
      constructor
      · rintro (rfl | ⟨hp, hne, hs⟩)
        · exact ⟨Or.inl rfl, hq⟩
        · exact ⟨Or.inr hp, hs⟩
      · rintro ⟨rfl | hp, hs⟩
        · exact Or.inl rfl
        · by_cases hpq : p = q
          · exact Or.inl hpq
          · exact Or.inr ⟨hp, hpq, hs⟩

theorem mem_dropDuplicatesIdx (l : List Pair) (p : Pair) :
    p ∈ (FR.dropDuplicatesIdx l).map Prod.snd ↔ p ∈ l := by
  rw [FR.dropDuplicatesIdx, mem_dropDuplicatesIdx_go]
  simp

theorem resolveLoop_keys (cat : Catalog) (l : List Pair)
    (tbl : List (Pair × FR.CellValue)) (h : FR.resolveLoop cat l = .ok tbl) :
    tbl.map Prod.fst = l := by
  induction l generalizing tbl with
  | nil =>
    rw [FR.resolveLoop] at h
    cases h
    rfl
  | cons p rest ih =>
    rw [FR.resolveLoop] at h
    cases hcell : (FR.resolveCell cat p.1 p.2).1 with
    | error e => rw [hcell] at h; cases h
    | ok v =>
      rw [hcell] at h
      cases hrest : FR.resolveLoop cat rest with
      | error e => rw [hrest] at h; cases h
      | ok acc =>
        rw [hrest] at h
        cases h
        simp [ih acc hrest]

theorem lookupBy_eq_none {R K : Type} [DecidableEq K] (right : List R)
    (keyR : R → K) (k : K) (h : k ∉ right.map keyR) :
    lookupBy right keyR k = none := by
  rw [lookupBy, List.find?_eq_none]
  intro r hr
  simp only [decide_eq_true_eq]
  intro hcontr
  exact h (List.mem_map.mpr ⟨r, hr, hcontr⟩)

theorem mem_leftJoin {L R K : Type} [DecidableEq K] (left : List L) (right : List R)
    (keyL : L → K) (keyR : R → K) (er : L × Option R)
    (h : er ∈ leftJoin left right keyL keyR) :
    er.2 = none ∨ ∃ m ∈ right, keyR m = keyL er.1 ∧ er.2 = some m := by
  simp only [leftJoin, List.mem_flatMap] at h
  obtain ⟨l, _, hmem⟩ := h
  cases hfil : right.filter (fun r => decide (keyR r = keyL l)) with
  | nil =>
    rw [hfil] at hmem
    simp only [List.mem_singleton] at hmem
    subst hmem
    exact Or.inl rfl
  | cons m ms =>
    rw [hfil] at hmem
    simp only [List.mem_map] at hmem
    obtain ⟨r, hr, rfl⟩ := hmem
    have hrf : r ∈ right.filter (fun r => decide (keyR r = keyL l)) := by
      rw [hfil]; exact hr
    have := List.mem_filter.mp hrf
    exact Or.inr ⟨r, this.1, by simpa using this.2, rfl⟩

def eAX : Event := ⟨"ArtistA", "TrackX", 10, "t1"⟩

def eBY : Event := ⟨"ArtistB", "TrackY", 20, "t2"⟩

def eAY : Event := ⟨"ArtistA", "TrackY", 30, "t3"⟩

/-- A catalog that finds nothing; the short-circuit paths never consult it. -/
def emptyCatalog : Catalog := ⟨fun _ _ => .items []⟩

def C4evs : List Event := [eAX, eBY]

/-- A prior snapshot holding exactly the same pair-SET as `C4evs`, but in
the other order. -/
def C4snap : List FR.MatchedRow := [(eBY, some (.id "id2")), (eAX, some (.id "id1"))]

/-- C4 counterexample: the snapshot pair-set equals the new pair-set, and
zero Resolver calls are made, but `add_track_id` does not return the prior
snapshot verbatim — `DataFrame.equals` on the deduplicated frames is order-
sensitive, so the code falls through to an empty difference and re-merges
the events against an empty table, nulling every identifier. -/
theorem C4_pair_set_equality_not_sufficient :
    (C4evs.map Event.pair).toFinset = (C4snap.map FR.MatchedRow.pair).toFinset ∧
    (FR.add_track_id emptyCatalog C4evs (some C4snap)).2 = [] ∧
    (FR.add_track_id emptyCatalog C4evs (some C4snap)).1 ≠ .ok C4snap ∧
    (FR.add_track_id emptyCatalog C4evs (some C4snap)).1
      = .ok [(eAX, none), (eBY, none)] := by
  exact ⟨by decide, by decide, by decide, by decide⟩

/-- C4 (amended): the short-circuit fires exactly when the deduplicated
pair frame of the events equals the deduplicated pair frame of the
snapshot as ordered, index-labelled dataframes; in that case the prior
snapshot is returned verbatim and no pair is handed to the Resolver. -/
theorem C4_short_circuit_requires_frame_equality (cat : Catalog)
    (file : List Event) (existing_df : List FR.MatchedRow)
    (h : FR.dropDuplicatesIdx (existing_df.map FR.MatchedRow.pair)
          = FR.dropDuplicatesIdx (file.map Event.pair)) :
    FR.add_track_id cat file (some existing_df) = (.ok existing_df, []) := by
  simp [FR.add_track_id, FR.unmatched_tracks, h]

def C4wSnap : List FR.MatchedRow := [(eAX, some (.id "id1")), (eBY, some (.id "id2"))]

/-- Witness for the amended C4 at a concrete input: snapshot and events
with identical deduplicated frames. -/
theorem C4_short_circuit_witness :
    FR.dropDuplicatesIdx (C4wSnap.map FR.MatchedRow.pair)
        = FR.dropDuplicatesIdx (C4evs.map Event.pair) ∧
    FR.add_track_id emptyCatalog C4evs (some C4wSnap) = (.ok C4wSnap, []) :=
  ⟨by decide, C4_short_circuit_requires_frame_equality emptyCatalog C4evs C4wSnap (by decide)⟩

def C5evs : List Event := [eAX, eAY, eBY]

/-- Prior snapshot resolving (ArtistA, TrackX) and (ArtistB, TrackY). -/
def C5snap : List FR.MatchedRow := [(eAX, some (.id "id1")), (eBY, some (.id "id2"))]

/-- A catalog resolving only the one genuinely new pair. -/
def C5cat : Catalog :=
  ⟨fun a t => if a = "ArtistA" ∧ t = "TrackY" then .items ["id3"] else .items []⟩

/-- C5 counterexample: with input pairs [(A, X), (A, Y), (B, Y)] and prior
snapshot pairs [(A, X), (B, Y)], exactly one Resolver call is made, for
(A, Y) — that half of the claim holds — but the previously resolved pairs
are NOT carried over: the result left-joins the events against the newly
resolved table only, so the (A, X) and (B, Y) rows come back with null
identifiers although the snapshot resolved them. -/
theorem C5_prior_matches_not_carried_over :
    (FR.add_track_id C5cat C5evs (some C5snap)).2 = [("ArtistA", "TrackY")] ∧
    (FR.add_track_id C5cat C5evs (some C5snap)).1
      = .ok [(eAX, none), (eAY, some (.id "id3")), (eBY, none)] ∧
    ((eAX, some (FR.CellValue.id "id1")) : FR.MatchedRow) ∈ C5snap := by
  exact ⟨by decide, by decide, by decide⟩

/-- C5 (amended): when the deduplicated frames differ, the pairs handed to
the Resolver are exactly those occurring among the events but not in the
snapshot, and previously resolved pairs are NOT carried over — every
result row whose pair occurs in the snapshot has a null identifier. -/
theorem C5_diff_only_resolver_calls (cat : Catalog) (file : List Event)
    (existing_df : List FR.MatchedRow)
    (hne : FR.dropDuplicatesIdx (existing_df.map FR.MatchedRow.pair)
            ≠ FR.dropDuplicatesIdx (file.map Event.pair)) :
    (∀ p : Pair,
        p ∈ (FR.add_track_id cat file (some existing_df)).2 ↔
          (p ∈ file.map Event.pair ∧ p ∉ existing_df.map FR.MatchedRow.pair)) ∧
    (∀ out, (FR.add_track_id cat file (some existing_df)).1 = .ok out →
        ∀ r ∈ out, r.1.pair ∈ existing_df.map FR.MatchedRow.pair → r.2 = none) := by
  have htracks : FR.add_track_id cat file (some existing_df) =
      FR.runResolve cat file
        (((FR.dropDuplicatesIdx (file.map Event.pair)).filter
          (fun ip => !decide (ip.2 ∈ (FR.dropDuplicatesIdx
            (existing_df.map FR.MatchedRow.pair)).map Prod.snd))).map Prod.snd) := by
    simp [FR.add_track_id, FR.unmatched_tracks, hne]
  have hchar : ∀ p : Pair,
      (p ∈ ((FR.dropDuplicatesIdx (file.map Event.pair)).filter
        (fun ip => !decide (ip.2 ∈ (FR.dropDuplicatesIdx
          (existing_df.map FR.MatchedRow.pair)).map Prod.snd))).map Prod.snd) ↔
      (p ∈ file.map Event.pair ∧ p ∉ existing_df.map FR.MatchedRow.pair) := by
    intro p
    have hstep : (p ∈ ((FR.dropDuplicatesIdx (file.map Event.pair)).filter
        (fun ip => !decide (ip.2 ∈ (FR.dropDuplicatesIdx
          (existing_df.map FR.MatchedRow.pair)).map Prod.snd))).map Prod.snd) ↔
        (p ∈ (FR.dropDuplicatesIdx (file.map Event.pair)).map Prod.snd ∧
          p ∉ (FR.dropDuplicatesIdx
            (existing_df.map FR.MatchedRow.pair)).map Prod.snd) := by
      constructor
      · intro hp
        obtain ⟨ip, hip, rfl⟩ := List.mem_map.mp hp
        have hfil := List.mem_filter.mp hip
        refine ⟨List.mem_map.mpr ⟨ip, hfil.1, rfl⟩, ?_⟩
        simpa using hfil.2
      · rintro ⟨hp, hnot⟩
        obtain ⟨ip, hin, rfl⟩ := List.mem_map.mp hp
        exact List.mem_map.mpr ⟨ip, List.mem_filter.mpr ⟨hin, by simpa using hnot⟩, rfl⟩
    rw [hstep, mem_dropDuplicatesIdx, mem_dropDuplicatesIdx]
  constructor
  · intro p
    rw [htracks]
    exact hchar p
  · intro out hout r hr hpair
    rw [htracks] at hout
    rw [FR.runResolve] at hout
    cases hloop : FR.resolveLoop cat
        (((FR.dropDuplicatesIdx (file.map Event.pair)).filter
          (fun ip => !decide (ip.2 ∈ (FR.dropDuplicatesIdx
            (existing_df.map FR.MatchedRow.pair)).map Prod.snd))).map Prod.snd) with
    | error e => rw [hloop] at hout; cases hout
    | ok tbl =>
      rw [hloop] at hout
      cases hout
      obtain ⟨er, her, rfl⟩ := List.mem_map.mp hr
      rcases mem_leftJoin file tbl Event.pair Prod.fst er her with hnone | ⟨m, hm, hkey, hsome⟩
      · simp [hnone]
      · exfalso
        have hmk : m.1 ∈ tbl.map Prod.fst := List.mem_map.mpr ⟨m, hm, rfl⟩
        rw [resolveLoop_keys cat _ tbl hloop] at hmk
        rw [hkey] at hmk
        exact ((hchar er.1.pair).mp hmk).2 hpair

/-- Witness for the amended C5 at the example input from the claim. -/
theorem C5_diff_only_witness :
    FR.dropDuplicatesIdx (C5snap.map FR.MatchedRow.pair)
        ≠ FR.dropDuplicatesIdx (C5evs.map Event.pair) ∧
    ((("ArtistA", "TrackY") : Pair) ∈ (FR.add_track_id C5cat C5evs (some C5snap)).2 ↔
      ((("ArtistA", "TrackY") : Pair) ∈ C5evs.map Event.pair ∧
        (("ArtistA", "TrackY") : Pair) ∉ C5snap.map FR.MatchedRow.pair)) :=
  ⟨by decide,
    (C5_diff_only_resolver_calls C5cat C5evs C5snap (by decide)).1 ("ArtistA", "TrackY")⟩

/-- 101 deduplicated tracks, so the identifier list spans two chunks of the
100-ceiling bulk endpoint. -/
def C6tracks : List TrackRow := List.replicate 100 ⟨"a", "t", "z"⟩ ++ [⟨"a", "t", "q"⟩]

def C6chunk1 : List String := List.replicate 100 "z"

/-- An endpoint for which every call containing identifier "z" fails with a
`SpotifyException`, at every auth generation. -/
def C6ep : SR.FeatEndpoint :=
  ⟨fun c _ =>
    if "z" ∈ c then .error .spotifyException
    else .ok (c.map (fun i => some ⟨i, 0⟩))⟩

/-- C6 counterexample: the first chunk fails at auth generation 0, is
retried once at generation 1, fails again — and the exception then escapes
`get_features` entirely: there is no per-chunk `LookupError`, and the
second chunk `["q"]` is never fetched, contradicting the claim that the
error stays confined to its chunk while the remaining chunks proceed. -/
theorem C6_failed_chunk_aborts_remaining :
    SR.chunkList (SR.Tracks.to_find C6tracks) = [C6chunk1, ["q"]] ∧
    SR.Tracks.get_features_fetch C6ep C6tracks
      = ([(C6chunk1, 0), (C6chunk1, 1)], .error .spotifyException) ∧
    (C6chunk1, 0) ∈ (SR.Tracks.get_features_fetch C6ep C6tracks).1 ∧
    (["q"], 0) ∉ (SR.Tracks.get_features_fetch C6ep C6tracks).1 ∧
    (["q"], 1) ∉ (SR.Tracks.get_features_fetch C6ep C6tracks).1 := by
  exact ⟨rfl, rfl, by decide, by decide, by decide⟩

/-- C6 (amended): on a `SpotifyException` for a chunk the loop refreshes
the auth object and retries exactly that chunk once; if the retry also
fails, the exception propagates out of the loop — the chunk is attempted
exactly twice and none of the remaining chunks is ever called. -/
theorem C6_chunk_retry_once_then_abort (ep : SR.FeatEndpoint) (c : List String)
    (rest : List (List String)) (auth : Nat) (e : PyExn)
    (h1 : ep.audioFeatures c auth = .error .spotifyException)
    (h2 : ep.audioFeatures c (auth + 1) = .error e) :
    SR.getFeaturesLoop ep auth (c :: rest)
      = ([(c, auth), (c, auth + 1)], .error e) := by
  rw [SR.getFeaturesLoop, h1, h2]

/-- Witness for the amended C6 at the concrete failing endpoint. -/
theorem C6_chunk_retry_witness :
    C6ep.audioFeatures C6chunk1 0 = .error .spotifyException ∧
    C6ep.audioFeatures C6chunk1 1 = .error .spotifyException ∧
    SR.getFeaturesLoop C6ep 0 [C6chunk1, ["q"]]
      = ([(C6chunk1, 0), (C6chunk1, 1)], .error .spotifyException) :=
  ⟨rfl, rfl, C6_chunk_retry_once_then_abort C6ep C6chunk1 [["q"]] 0 .spotifyException rfl rfl⟩

theorem FS_isfile_write (fs : SR.FS) (n c x : String) :
    SR.FS.isfile (SR.FS.write fs n c) x = (x == n || SR.FS.isfile fs x) := by
  cases h : x == n with
  | true => simp [SR.FS.isfile, SR.FS.write, List.lookup, h]
  | false => simp [SR.FS.isfile, SR.FS.write, List.lookup, h]

theorem runLoop_isfile_mono (pl : SR.Pipeline) (l : List String) :
    ∀ (fs : SR.FS) (n : Nat) (log : List SR.LogEvent) (x : String),
      SR.FS.isfile fs x = true →
      SR.FS.isfile (SR.runLoop pl l fs n log).fs x = true := by
  induction l with
  | nil => intro fs n log x hx; simpa [SR.runLoop] using hx
  | cons p rest ih =>
    intro fs n log x hx
    rw [SR.runLoop]
    by_cases hp : SR.FS.isfile fs (SR.outputName (some p)) = true
    · rw [if_pos hp]
      exact ih _ _ _ _ hx
    · rw [if_neg hp]
      cases hreh : pl.rehydrate (some p) with
      | ok data =>
        refine ih _ _ _ _ ?_
        rw [FS_isfile_write]
        simp [hx]
      | error e => simpa using hx

theorem runLoop_outputs_exist (pl : SR.Pipeline) (l : List String) :
    ∀ (fs : SR.FS) (n : Nat) (log : List SR.LogEvent),
      (SR.runLoop pl l fs n log).exn = none →
      ∀ p ∈ l,
        SR.FS.isfile (SR.runLoop pl l fs n log).fs (SR.outputName (some p)) = true := by
  induction l with
  | nil => intro fs n log _ p hp; cases hp
  | cons q rest ih =>
    intro fs n log h p hp
    rw [SR.runLoop] at h ⊢
    by_cases hq : SR.FS.isfile fs (SR.outputName (some q)) = true
    · rw [if_pos hq] at h ⊢
      rcases List.mem_cons.mp hp with rfl | hp2
      · exact runLoop_isfile_mono pl rest _ _ _ _ hq
      · exact ih _ _ _ h p hp2
    · rw [if_neg hq] at h ⊢
      cases hreh : pl.rehydrate (some q) with
      | ok data =>
        rw [hreh] at h
        rcases List.mem_cons.mp hp with rfl | hp2
        · refine runLoop_isfile_mono pl rest _ _ _ _ ?_
          rw [FS_isfile_write]
          simp
        · exact ih _ _ _ h p hp2
      | error e =>
        rw [hreh] at h
        simp at h

theorem runLoop_all_skip (pl : SR.Pipeline) (l : List String) :
    ∀ (fs : SR.FS) (n : Nat) (log : List SR.LogEvent),
      (∀ p ∈ l, SR.FS.isfile fs (SR.outputName (some p)) = true) →
      SR.runLoop pl l fs n log = ⟨fs, n, log ++ l.map SR.LogEvent.skippedPerson, none⟩ := by
  induction l with
  | nil => intro fs n log _; simp [SR.runLoop]
  | cons q rest ih =>
    intro fs n log h
    rw [SR.runLoop, if_pos (h q (List.mem_cons_self q rest))]
    rw [ih fs n _ (fun p hp => h p (List.mem_cons_of_mem q hp))]
    simp

def C7pl : SR.Pipeline := ⟨fun _ => .ok "data", fun _ => 7⟩

def C7fs : SR.FS := [("hydrated.tsv", "old")]

/-- C7 counterexample: in the single anonymous-user case, even with the
anonymous output already persisted, `Rehydrator.run` does not skip with a
log note — iterating the `None` person-id list raises a `TypeError`, which
the `except AttributeError` handler does not catch, so the run propagates
an exception (empty log, no skip note). -/
theorem C7_anonymous_rerun_raises :
    SR.FS.isfile C7fs (SR.outputName none) = true ∧
    SR.Rehydrator.run C7pl none C7fs = ⟨C7fs, 0, [], some .typeError⟩ := by
  exact ⟨rfl, rfl⟩

/-- C7 (amended): for identified users the rerun contract holds — after a
first run that completed without an exception, a second run over the same
id list performs zero external calls, leaves the output directory
byte-identical, and logs one skip note per user. -/
theorem C7_identified_rerun_idempotent (pl : SR.Pipeline) (l : List String)
    (fs : SR.FS)
    (h : (SR.Rehydrator.runBody pl (some l) fs).exn = none) :
    SR.Rehydrator.run pl (some l) ((SR.Rehydrator.run pl (some l) fs).fs) =
      ⟨(SR.Rehydrator.run pl (some l) fs).fs, 0,
        l.map SR.LogEvent.skippedPerson, none⟩ := by
  have hbody1 : SR.Rehydrator.runBody pl (some l) fs = SR.runLoop pl l fs 0 [] := rfl
  have hexn : (SR.runLoop pl l fs 0 []).exn = none := by
    rw [← hbody1]
    exact h
  have hrun1 : SR.Rehydrator.run pl (some l) fs = SR.runLoop pl l fs 0 [] := by
    simp [SR.Rehydrator.run, hbody1, hexn]
  have hskip : SR.runLoop pl l ((SR.runLoop pl l fs 0 []).fs) 0 [] =
      ⟨(SR.runLoop pl l fs 0 []).fs, 0, l.map SR.LogEvent.skippedPerson, none⟩ := by
    simpa using
      runLoop_all_skip pl l _ 0 [] (runLoop_outputs_exist pl l fs 0 [] hexn)
  rw [hrun1]
  have hbody2 : SR.Rehydrator.runBody pl (some l) ((SR.runLoop pl l fs 0 []).fs)
      = SR.runLoop pl l ((SR.runLoop pl l fs 0 []).fs) 0 [] := rfl
  simp [SR.Rehydrator.run, hbody2, hskip]

/-- Witness for the amended C7 at a concrete single-user input. -/
theorem C7_identified_rerun_witness :
    (SR.Rehydrator.runBody C7pl (some ["u1"]) []).exn = none ∧
    SR.Rehydrator.run C7pl (some ["u1"]) ((SR.Rehydrator.run C7pl (some ["u1"]) []).fs) =
      ⟨(SR.Rehydrator.run C7pl (some ["u1"]) []).fs, 0,
        [SR.LogEvent.skippedPerson "u1"], none⟩ :=
  ⟨rfl, C7_identified_rerun_idempotent C7pl ["u1"] [] rfl⟩

/-- A pipeline whose first user raises while building the dataset and whose
other users (and the anonymous case) succeed. -/
def C9pl : SR.Pipeline :=
  ⟨fun o =>
    match o with
    | some "u1" => .error .spotifyException
    | _ => .ok "data",
   fun _ => 3⟩

/-- C9 counterexample: with users ["u1", "u2"] and a failure while building
the dataset of "u1", the exception escapes the per-user loop: the run ends
with the exception, "u2" is never processed — no save log entry and no
output file for it — contradicting per-user failure isolation. -/
theorem C9_failure_not_isolated :
    SR.Rehydrator.run C9pl (some ["u1", "u2"]) [] = ⟨[], 3, [], some .spotifyException⟩ ∧
    SR.LogEvent.savedPerson (some "u2")
        ∉ (SR.Rehydrator.run C9pl (some ["u1", "u2"]) []).log ∧
    SR.FS.isfile (SR.Rehydrator.run C9pl (some ["u1", "u2"]) []).fs
        (SR.outputName (some "u2")) = false := by
  exact ⟨rfl, by decide, rfl⟩

/-- C9 (amended): an exception raised while building or saving one user's
dataset aborts the per-user loop at once — the run returns with that
exception, the output directory is left as it was, and no subsequent user
is processed (nothing is logged at all for the remaining users).  Only the
`"MISSING"`/`"ERROR"` sentinel values, which are data rather than
exceptions, are isolated per pair. -/
theorem C9_user_failure_aborts_run (pl : SR.Pipeline) (u : String)
    (rest : List String) (fs : SR.FS) (e : PyExn)
    (hnot : SR.FS.isfile fs (SR.outputName (some u)) = false)
    (herr : pl.rehydrate (some u) = .error e)
    (hne : e ≠ .attributeError) :
    SR.Rehydrator.run pl (some (u :: rest)) fs
      = ⟨fs, pl.cost (some u), [], some e⟩ := by
  have hbody : SR.Rehydrator.runBody pl (some (u :: rest)) fs
      = ⟨fs, pl.cost (some u), [], some e⟩ := by
    have : SR.Rehydrator.runBody pl (some (u :: rest)) fs
        = SR.runLoop pl (u :: rest) fs 0 [] := rfl
    rw [this, SR.runLoop, if_neg (by simp [hnot]), herr]
    simp
  simp [SR.Rehydrator.run, hbody, hne]

/-- Witness for the amended C9 at the concrete two-user input. -/
theorem C9_user_failure_witness :
    SR.FS.isfile ([] : SR.FS) (SR.outputName (some "u1")) = false ∧
    C9pl.rehydrate (some "u1") = .error .spotifyException ∧
    PyExn.spotifyException ≠ PyExn.attributeError ∧
    SR.Rehydrator.run C9pl (some ["u1", "u2"]) []
      = ⟨[], C9pl.cost (some "u1"), [], some .spotifyException⟩ :=
  ⟨rfl, rfl, by decide,
    C9_user_failure_aborts_run C9pl "u1" ["u2"] [] .spotifyException rfl rfl (by decide)⟩

/-- C10: whenever `Tracks.get_features` returns normally, the returned
column list contains none of the raw catalog metadata columns `id`, `uri`,
`track_href`, `analysis_url` (line 402 drops them after the merge, and
`drop` would have raised `KeyError` had any been absent); when the feature
columns do not collide with the tracks-table columns, the result is
exactly the tracks columns followed by the surviving feature columns. -/
theorem C10_metadata_columns_dropped (featureCols : List String) (out : List String)
    (h : SR.Tracks.get_features_cols featureCols = .ok out) :
    ("id" ∉ out ∧ "uri" ∉ out ∧ "track_href" ∉ out ∧ "analysis_url" ∉ out) ∧
    ((∀ c ∈ featureCols, c ∉ SR.tracksCols) →
      out = SR.tracksCols ++ featureCols.filter
        (fun c => !decide (c ∈ (["id", "uri", "track_href", "analysis_url"] : List String)))) := by
  rw [SR.Tracks.get_features_cols, SR.dropColumns] at h
  by_cases hall : (["id", "uri", "track_href", "analysis_url"] : List String).all
      (fun t => decide (t ∈ SR.suffixCols SR.tracksCols featureCols)) = true
  · rw [if_pos hall] at h
    have hout : out = (SR.suffixCols SR.tracksCols featureCols).filter
        (fun c => !decide (c ∈ (["id", "uri", "track_href", "analysis_url"] : List String))) := by
      cases h
      rfl
    constructor
    · subst hout
      refine ⟨?_, ?_, ?_, ?_⟩ <;>
        · intro hm
          have := (List.mem_filter.mp hm).2
          simp at this
    · intro hdisj
      have hsuf : SR.suffixCols SR.tracksCols featureCols
          = SR.tracksCols ++ featureCols := by
        rw [SR.suffixCols]
        have h1 : SR.tracksCols.map
            (fun c => if c ∈ featureCols then c ++ "_x" else c) = SR.tracksCols := by
          rw [List.map_congr_left (fun c hc => if_neg (fun hcf => hdisj c hcf hc)),
            List.map_id']
        have h2 : featureCols.map
            (fun c => if c ∈ SR.tracksCols then c ++ "_y" else c) = featureCols := by
          rw [List.map_congr_left (fun c hc => if_neg (hdisj c hc)), List.map_id']
        rw [h1, h2]
      rw [hout, hsuf, List.filter_append]
      congr 1
  · rw [if_neg hall] at h
    cases h

/-- A representative audio-features response column list. -/
def C10cols : List String :=
  ["danceability", "energy", "id", "uri", "track_href", "analysis_url", "duration_ms"]

/-- Witness for C10 at a concrete response column list. -/
theorem C10_metadata_columns_witness :
    SR.Tracks.get_features_cols C10cols
      = .ok ["artistName", "trackName", "trackID", "danceability", "energy", "duration_ms"] ∧
    (("id" ∉ (["artistName", "trackName", "trackID", "danceability", "energy",
          "duration_ms"] : List String) ∧
        "uri" ∉ (["artistName", "trackName", "trackID", "danceability", "energy",
          "duration_ms"] : List String) ∧
        "track_href" ∉ (["artistName", "trackName", "trackID", "danceability", "energy",
          "duration_ms"] : List String) ∧
        "analysis_url" ∉ (["artistName", "trackName", "trackID", "danceability", "energy",
          "duration_ms"] : List String)) ∧
      ((∀ c ∈ C10cols, c ∉ SR.tracksCols) →
        (["artistName", "trackName", "trackID", "danceability", "energy",
            "duration_ms"] : List String)
          = SR.tracksCols ++ C10cols.filter
              (fun c => !decide (c ∈ (["id", "uri", "track_href", "analysis_url"] : List String))))) :=
  ⟨rfl, C10_metadata_columns_dropped C10cols _ rfl⟩

/-- An artist name containing an apostrophe, so that the stripped retry is
a different query from the exact one. -/
def C8artist : String := "A" ++ apos ++ "b"

/-- A catalog for which the exact search finds nothing and the
apostrophe-stripped search raises a `SpotifyException`. -/
def C8cat2 : Catalog :=
  ⟨fun a t => if a = C8artist ∧ t = "X" then .items [] else .raise .spotifyException⟩

/-- C8 counterexample: when the SECOND attempt (apostrophes stripped)
raises a non-`IndexError` exception, the per-row loop does NOT record the
`ERROR` sentinel — the exception is raised inside the `except IndexError`
handler, the sibling `except Exception` clause of the same `try` does not
apply, and the exception propagates out of the resolution loop. -/
theorem C8_later_attempt_error_propagates :
    FR.resolveCell C8cat2 C8artist "X"
      = (.error .spotifyException, [(C8artist, "X"), ("Ab", "X")]) := by
  exact rfl

/-- C8 (amended): only when the FIRST (exact-string) attempt raises a
non-`IndexError` does resolution record the `ERROR` sentinel without
attempting any further heuristic — `add_track_id` stores the tuple
`("ERROR", e)` after exactly one search, and `Track.get` returns the
string `"ERROR"`; an error raised by a later attempt instead propagates as
an exception (see the counterexample). -/
theorem C8_first_attempt_error_sentinel (cat : Catalog) (artist track : String)
    (e : PyExn) (hne : e ≠ .indexError)
    (h : cat.search artist track = .raise e) :
    FR.resolveCell cat artist track = (.ok (.errorTuple e), [(artist, track)]) ∧
    SR.Track.get cat artist track = .ok "ERROR" := by
  cases e with
  | indexError => exact absurd rfl hne
  | typeError =>
    exact ⟨by simp [FR.resolveCell, FR.get_track, h],
      by simp [SR.Track.get, SR.Track.search_results, h]⟩
  | attributeError =>
    exact ⟨by simp [FR.resolveCell, FR.get_track, h],
      by simp [SR.Track.get, SR.Track.search_results, h]⟩
  | spotifyException =>
    exact ⟨by simp [FR.resolveCell, FR.get_track, h],
      by simp [SR.Track.get, SR.Track.search_results, h]⟩
  | keyError =>
    exact ⟨by simp [FR.resolveCell, FR.get_track, h],
      by simp [SR.Track.get, SR.Track.search_results, h]⟩
  | otherError msg =>
    exact ⟨by simp [FR.resolveCell, FR.get_track, h],
      by simp [SR.Track.get, SR.Track.search_results, h]⟩

/-- A catalog whose every search raises a `SpotifyException`. -/
def C8cat : Catalog := ⟨fun _ _ => .raise .spotifyException⟩

/-- Witness for the amended C8 at a concrete failing catalog. -/
theorem C8_first_attempt_witness :
    PyExn.spotifyException ≠ PyExn.indexError ∧
    C8cat.search "A" "X" = .raise .spotifyException ∧
    (FR.resolveCell C8cat "A" "X"
        = (.ok (.errorTuple .spotifyException), [("A", "X")]) ∧
      SR.Track.get C8cat "A" "X" = .ok "ERROR") :=
  ⟨by decide, rfl,
    C8_first_attempt_error_sentinel C8cat "A" "X" .spotifyException (by decide) rfl⟩
